import Mathlib

/-!
Shallow embedding of the gizAI adapter (src/main.py and src/main2.py).

The two Python files each define a pydantic data model, a provider class
`GizAI` whose `create_async_generator` performs one outbound POST and parses
the reply, and a FastAPI handler `chat_completions` that translates the
inbound messages, invokes the provider, and composes the response.

The outbound network is modelled as an oracle `provider : Json → HttpResponse`
mapping the JSON body actually sent to the HTTP response observed; exceptions
become `Except String` values carrying the exception text, and a FastAPI
`HTTPException` becomes a `HandlerResult.httpError` with status and detail.
-/

/-- A JSON value, as carried in request and response bodies. -/
inductive Json where
  | str (s : String)
  | num (n : Int)
  | bool (b : Bool)
  | null
  | arr (xs : List Json)
  | obj (fields : List (String × Json))

/-- Look up a key in a JSON object field list (first occurrence wins). -/
def lookupField : List (String × Json) → String → Option Json
  | [], _ => none
  | (k, v) :: rest, key => if k = key then some v else lookupField rest key

/-- `dict[key]` access on a JSON value: defined only on objects. -/
def Json.getField : Json → String → Option Json
  | .obj fields, key => lookupField fields key
  | _, _ => none

/-- The observable part of the outbound HTTP response: status code and the
JSON body (`none` when the body is not parsable as JSON). -/
structure HttpResponse where
  status : Nat
  body : Option Json

/-- Result of one inbound HTTP call: a 200 with a typed body, or an
`HTTPException`-style error with status code and detail string. -/
inductive HandlerResult (α : Type) where
  | ok (body : α)
  | httpError (status : Nat) (detail : String)

/-- The detail string mentions the given status code: the code appears in it
(here, at its end, as in the f-string the source uses). -/
def mentions (detail : String) (code : Nat) : Prop :=
  ∃ pre, detail = pre ++ toString code

namespace Main

/-! ## src/main.py -/

/-- `MessageType(str, Enum)` of src/main.py: HUMAN, AI, SYSTEM, ASSISTANT. -/
inductive MessageType where
  | HUMAN
  | AI
  | SYSTEM
  | ASSISTANT
deriving DecidableEq

/-- The string value of each enum member. -/
def MessageType.value : MessageType → String
  | .HUMAN => "human"
  | .AI => "ai"
  | .SYSTEM => "system"
  | .ASSISTANT => "assistant"

/-- Coercion of a raw string into the str-enum, as pydantic performs after the
before-validator: succeeds exactly on the four member values. -/
def MessageType.ofString (s : String) : Option MessageType :=
  if s = "human" then some .HUMAN
  else if s = "ai" then some .AI
  else if s = "system" then some .SYSTEM
  else if s = "assistant" then some .ASSISTANT
  else none

/-- Inbound `Message` model of src/main.py; every field is optional. -/
structure Message where
  content : Option String := none
  role : Option MessageType := none
  tool_calls : Option (List Json) := none
  function_call : Option Json := none

/-- The `map_role` before-validator of `Message`: "user" becomes HUMAN,
"assistant" becomes AI, anything else is returned unchanged (left to the
subsequent enum coercion). -/
def Message.map_role (v : String) : MessageType ⊕ String :=
  if v = "user" then .inl .HUMAN
  else if v = "assistant" then .inl .AI
  else .inr v

/-- Pydantic validation of the `role` field: run the before-validator, then
coerce the result against `MessageType | None`. -/
def validateRole (v : Option String) : Except String (Option MessageType) :=
  match v with
  | none => .ok none
  | some s =>
    match Message.map_role s with
    | .inl t => .ok (some t)
    | .inr s2 =>
      match MessageType.ofString s2 with
      | some t => .ok (some t)
      | none => .error "validation error: role is not a valid MessageType"

/-- Which inbound role strings the first instance accepts: the two aliases of
`Message.map_role` plus the four enum member values. -/
def recognizedRole (s : String) : Bool :=
  s == "user" || s == "assistant" || s == "human" || s == "ai" || s == "system"

/-- `ResponseMessage` model of src/main.py (role is required). -/
structure ResponseMessage where
  content : Option String := none
  role : MessageType
  tool_calls : Option (List Json) := none
  function_call : Option Json := none

/-- The `map_role` before-validator of `ResponseMessage`: "user" becomes
HUMAN, "assistant" becomes ASSISTANT, "system" becomes SYSTEM. -/
def ResponseMessage.map_role (v : String) : MessageType ⊕ String :=
  if v = "user" then .inl .HUMAN
  else if v = "assistant" then .inl .ASSISTANT
  else if v = "system" then .inl .SYSTEM
  else .inr v

/-- `Choices` model of src/main.py. -/
structure Choices where
  finish_reason : Option String := none
  index : Option Nat := none
  message : Option ResponseMessage := none

/-- `Usage` model of src/main.py. -/
structure Usage where
  completion_tokens : Option Nat := none
  prompt_tokens : Option Nat := none
  total_tokens : Option Nat := none
  completion_tokens_details : Option (List Json) := none
  prompt_tokens_details : Option (List Json) := none

/-- Inbound `ChatRequest` model of src/main.py. -/
structure ChatRequest where
  model : String
  messages : List Message
  temperature : Option Float := none

/-- Outbound `ChatResponse` model of src/main.py. -/
structure ChatResponse where
  id : Option String := none
  choices : Option (List Choices) := none
  created : Option Nat := none
  model : Option String := none
  object : Option String := none
  service_tier : Option String := none
  system_fingerprint : Option String := none
  usage : Option Usage := none
  output : Option String := none

/-- JSON rendering of an optional string field (None serializes as null). -/
def jsonOfOptStr : Option String → Json
  | none => .null
  | some s => .str s

namespace GizAI

/-- The fixed outbound endpoint URL. -/
def api_endpoint : String := "https://app.giz.ai/api/data/users/inferenceServer.infer"

/-- The fixed static header set sent on the outbound call. -/
def headers : List (String × String) :=
  [ ("Accept", "application/json, text/plain, */*"),
    ("Accept-Language", "en-US,en;q=0.9"),
    ("Cache-Control", "no-cache"),
    ("Connection", "keep-alive"),
    ("Content-Type", "application/json"),
    ("DNT", "1"),
    ("Origin", "https://app.giz.ai"),
    ("Pragma", "no-cache"),
    ("Sec-Fetch-Dest", "empty"),
    ("Sec-Fetch-Mode", "cors"),
    ("Sec-Fetch-Site", "same-origin"),
    ("User-Agent", "Mozilla/5.0 (X11; Linux x86_64) AppleWebKit/537.36 (KHTML, like Gecko) Chrome/130.0.0.0 Safari/537.36"),
    ("sec-ch-ua", "\"Not?A_Brand\";v=\"99\", \"Chromium\";v=\"130\""),
    ("sec-ch-ua-mobile", "?0"),
    ("sec-ch-ua-platform", "\"Linux\"") ]

/-- The `data` dict built inside `create_async_generator`. -/
def buildData (model : String) (messages : List Json) : Json :=
  .obj [ ("model", .str "chat"),
         ("baseModel", .str model),
         ("input", .obj [ ("messages", .arr messages), ("mode", .str "chat") ]),
         ("noStream", .bool true) ]

/-- `GizAI.create_async_generator` of src/main.py: build the data, POST it
(the oracle `provider` maps the sent body to the observed response), then on
status 201 parse the JSON body and yield `result["output"].strip()`; on any
other status raise. Exception texts model the Python exceptions raised. -/
def create_async_generator (model : String) (messages : List Json)
    (provider : Json → HttpResponse) : Except String String :=
  let data := buildData model messages
  let resp := provider data
  if resp.status = 201 then
    match resp.body with
    | none => .error "JSONDecodeError: response body is not valid JSON"
    | some body =>
      match body.getField "output" with
      | some (.str s) => .ok s.trim
      | some _ => .error "AttributeError: output value has no attribute strip"
      | none => .error "KeyError: output"
  else
    .error ("Unexpected response status: " ++ toString resp.status)

end GizAI

/-- Translation of one parsed message into the provider message dict
`{"type": msg.role.value, "content": msg.content}`; accessing `.value` on a
`None` role raises an AttributeError. -/
def translateMessage (m : Message) : Except String Json :=
  match m.role with
  | some r => .ok (.obj [ ("type", .str r.value), ("content", jsonOfOptStr m.content) ])
  | none => .error "AttributeError: NoneType object has no attribute value"

/-- The handler list comprehension: messages are translated left to right and
the first failure aborts the whole translation. -/
def translateMessages : List Message → Except String (List Json)
  | [] => .ok []
  | m :: ms =>
    match translateMessage m with
    | .error e => .error e
    | .ok j =>
      match translateMessages ms with
      | .error e => .error e
      | .ok js => .ok (j :: js)

/-- The body the handler causes to be sent for a given request: translation
followed by `GizAI.buildData`. -/
def outboundBody (req : ChatRequest) : Except String Json :=
  match translateMessages req.messages with
  | .error e => .error e
  | .ok msgs => .ok (GizAI.buildData req.model msgs)

/-- The `ChatResponse` literal the handler constructs on success: fixed id
and timestamp, one choice holding the output text as the assistant message,
zero usage counters. -/
def composeResponse (model output : String) : ChatResponse :=
  { id := some "chatcmpl-dc4f6c13-7739-4acc-8940-ec822ccb24dc",
    choices := some [ { finish_reason := some "stop",
                        index := some 0,
                        message := some { content := some output,
                                          role := MessageType.ASSISTANT } } ],
    created := some 1735359843,
    model := some model,
    object := some "chat.completion",
    system_fingerprint := none,
    usage := some { completion_tokens := some 0, prompt_tokens := some 0,
                    total_tokens := some 0 } }

/-- The `/v1/chat/completions` handler of src/main.py: translate, call the
provider, compose; any exception is caught and becomes an HTTP 500 whose
detail is the exception text. (The defensive `response is None` branch of the
source is unreachable here: the generator always yields once or raises.) -/
def chat_completions (req : ChatRequest) (provider : Json → HttpResponse) :
    HandlerResult ChatResponse :=
  match translateMessages req.messages with
  | .error e => .httpError 500 e
  | .ok msgs =>
    match GizAI.create_async_generator req.model msgs provider with
    | .error e => .httpError 500 e
    | .ok out => .ok (composeResponse req.model out)

end Main

namespace Main2

/-! ## src/main2.py -/

/-- `MessageType(str, Enum)` of src/main2.py: HUMAN, ASSISTANT, SYSTEM. -/
inductive MessageType where
  | HUMAN
  | ASSISTANT
  | SYSTEM
deriving DecidableEq

/-- The string value of each enum member. -/
def MessageType.value : MessageType → String
  | .HUMAN => "human"
  | .ASSISTANT => "assistant"
  | .SYSTEM => "system"

/-- Coercion of a raw string into the str-enum: there is no before-validator
in this instance, so only the three member values are accepted. -/
def MessageType.ofString (s : String) : Option MessageType :=
  if s = "human" then some .HUMAN
  else if s = "assistant" then some .ASSISTANT
  else if s = "system" then some .SYSTEM
  else none

/-- Inbound `Message` model of src/main2.py: both fields required, the role
field is named `type`. -/
structure Message where
  type : MessageType
  content : String

/-- Pydantic validation of the `type` field for this instance. -/
def parseType (s : String) : Except String MessageType :=
  match MessageType.ofString s with
  | some t => .ok t
  | none => .error "validation error: type is not a valid MessageType"

/-- Which type strings the second instance accepts: exactly the three enum
member values, with no aliases. -/
def recognizedType (s : String) : Bool :=
  s == "human" || s == "assistant" || s == "system"

/-- Inbound `ChatRequest` model of src/main2.py, with its extra `mode` and
`noStream` fields and their defaults. -/
structure ChatRequest where
  model : String
  messages : List Message
  mode : String := "plan"
  noStream : Bool := true

/-- Outbound `ChatResponse` model of src/main2.py: the minimal shape. -/
structure ChatResponse where
  output : String
deriving DecidableEq

namespace GizAI

/-- The fixed outbound endpoint URL. -/
def api_endpoint : String := "https://app.giz.ai/api/data/users/inferenceServer.infer"

/-- The fixed static header set sent on the outbound call. -/
def headers : List (String × String) :=
  [ ("Accept", "application/json, text/plain, */*"),
    ("Accept-Language", "en-US,en;q=0.9"),
    ("Cache-Control", "no-cache"),
    ("Connection", "keep-alive"),
    ("Content-Type", "application/json"),
    ("DNT", "1"),
    ("Origin", "https://app.giz.ai"),
    ("Pragma", "no-cache"),
    ("Sec-Fetch-Dest", "empty"),
    ("Sec-Fetch-Mode", "cors"),
    ("Sec-Fetch-Site", "same-origin"),
    ("User-Agent", "Mozilla/5.0 (X11; Linux x86_64) AppleWebKit/537.36 (KHTML, like Gecko) Chrome/130.0.0.0 Safari/537.36"),
    ("sec-ch-ua", "\"Not?A_Brand\";v=\"99\", \"Chromium\";v=\"130\""),
    ("sec-ch-ua-mobile", "?0"),
    ("sec-ch-ua-platform", "\"Linux\"") ]

/-- The `data` dict built inside `create_async_generator` of src/main2.py. -/
def buildData (model : String) (messages : List Json) : Json :=
  .obj [ ("model", .str "chat"),
         ("baseModel", .str model),
         ("input", .obj [ ("messages", .arr messages), ("mode", .str "chat") ]),
         ("noStream", .bool true) ]

/-- `GizAI.create_async_generator` of src/main2.py. Identical to the first
instance up to the debug print of the request body, which has no observable
effect on the returned value. -/
def create_async_generator (model : String) (messages : List Json)
    (provider : Json → HttpResponse) : Except String String :=
  let data := buildData model messages
  let resp := provider data
  if resp.status = 201 then
    match resp.body with
    | none => .error "JSONDecodeError: response body is not valid JSON"
    | some body =>
      match body.getField "output" with
      | some (.str s) => .ok s.trim
      | some _ => .error "AttributeError: output value has no attribute strip"
      | none => .error "KeyError: output"
  else
    .error ("Unexpected response status: " ++ toString resp.status)

end GizAI

/-- Translation of one parsed message into the provider message dict
`{"type": msg.type, "content": msg.content}`; total, since both fields are
required in this instance. -/
def translateMessage (m : Message) : Json :=
  .obj [ ("type", .str m.type.value), ("content", .str m.content) ]

/-- The handler list comprehension of src/main2.py. -/
def translateMessages (msgs : List Message) : List Json :=
  msgs.map translateMessage

/-- The body the handler causes to be sent for a given request. -/
def outboundBody (req : ChatRequest) : Json :=
  GizAI.buildData req.model (translateMessages req.messages)

/-- The `/v1/chat/completions` handler of src/main2.py: translate, call the
provider, wrap the output in the minimal `ChatResponse`; any exception
becomes an HTTP 500 whose detail is the exception text. -/
def chat_completions (req : ChatRequest) (provider : Json → HttpResponse) :
    HandlerResult ChatResponse :=
  match GizAI.create_async_generator req.model (translateMessages req.messages) provider with
  | .error e => .httpError 500 e
  | .ok out => .ok { output := out }

end Main2

/-! ## Claim theorems -/

/-- C1: for every inbound ChatRequest, when the outbound provider call
returns HTTP 201 with a JSON body whose `output` field is the string X, the
endpoint returns the success result and the text carried in the response
(the `output` field in minimal mode, or the sole choice's message content in
OpenAI mode) equals X with surrounding whitespace trimmed. -/
theorem c1_success_response_text :
    (∀ (req : Main.ChatRequest) (msgs : List Json) (X : String)
       (provider : Json → HttpResponse),
       Main.translateMessages req.messages = .ok msgs →
       provider (Main.GizAI.buildData req.model msgs) =
         ⟨201, some (Json.obj [("output", Json.str X)])⟩ →
       Main.chat_completions req provider = .ok (Main.composeResponse req.model X.trim)
       ∧ (Main.composeResponse req.model X.trim).choices =
           some [ { finish_reason := some "stop", index := some 0,
                    message := some { content := some X.trim,
                                      role := Main.MessageType.ASSISTANT } } ])
  ∧ (∀ (req : Main2.ChatRequest) (X : String) (provider : Json → HttpResponse),
       provider (Main2.GizAI.buildData req.model (Main2.translateMessages req.messages)) =
         ⟨201, some (Json.obj [("output", Json.str X)])⟩ →
       Main2.chat_completions req provider = .ok { output := X.trim }) := by
  constructor
  · intro req msgs X provider ht hp
    constructor
    · simp [Main.chat_completions, ht, Main.GizAI.create_async_generator, hp,
        Json.getField, lookupField]
    · rfl
  · intro req X provider hp
    simp [Main2.chat_completions, Main2.GizAI.create_async_generator, hp,
      Json.getField, lookupField]

/-- Witness for C1 at a concrete request and a concrete 201 provider mock. -/
theorem c1_success_response_text_witness :
    (Main.chat_completions
        { model := "m", messages := [ { content := some "hi", role := some .HUMAN } ] }
        (fun _ => ⟨201, some (Json.obj [("output", Json.str " X ")])⟩) =
          .ok (Main.composeResponse "m" " X ".trim)
     ∧ (Main.composeResponse "m" " X ".trim).choices =
         some [ { finish_reason := some "stop", index := some 0,
                  message := some { content := some " X ".trim,
                                    role := Main.MessageType.ASSISTANT } } ])
  ∧ Main2.chat_completions
      { model := "m", messages := [ { type := .HUMAN, content := "hi" } ] }
      (fun _ => ⟨201, some (Json.obj [("output", Json.str " X ")])⟩) =
        .ok { output := " X ".trim } :=
  ⟨c1_success_response_text.1
      { model := "m", messages := [ { content := some "hi", role := some .HUMAN } ] }
      [Json.obj [("type", Json.str "human"), ("content", Json.str "hi")]]
      " X " _ rfl rfl,
   c1_success_response_text.2
      { model := "m", messages := [ { type := .HUMAN, content := "hi" } ] }
      " X " _ rfl⟩

/-- C2: for every inbound ChatRequest, the outbound provider body has its
top-level `model` field equal to the literal "chat", `baseModel` equal to
the caller-supplied model identifier, and `noStream` equal to true,
regardless of any flags in the inbound request (both instances). -/
theorem c2_outbound_body_fields :
    (∀ (req : Main.ChatRequest) (b : Json),
       Main.outboundBody req = .ok b →
       b.getField "model" = some (.str "chat")
       ∧ b.getField "baseModel" = some (.str req.model)
       ∧ b.getField "noStream" = some (.bool true))
  ∧ (∀ req : Main2.ChatRequest,
       (Main2.outboundBody req).getField "model" = some (.str "chat")
       ∧ (Main2.outboundBody req).getField "baseModel" = some (.str req.model)
       ∧ (Main2.outboundBody req).getField "noStream" = some (.bool true)) := by
  constructor
  · intro req b hb
    unfold Main.outboundBody at hb
    cases h : Main.translateMessages req.messages with
    | error e => rw [h] at hb; cases hb
    | ok msgs =>
      rw [h] at hb
      cases hb
      refine ⟨rfl, rfl, ?_⟩
      simp [Main.GizAI.buildData, Json.getField, lookupField]
  · intro req
    refine ⟨rfl, rfl, ?_⟩
    simp [Main2.outboundBody, Main2.GizAI.buildData, Json.getField, lookupField]

/-- Witness for C2 at a concrete request for each instance. -/
theorem c2_outbound_body_fields_witness :
    ((Main.GizAI.buildData "qwen-coder-32b"
        [Json.obj [("type", Json.str "human"), ("content", Json.str "hi")]]).getField
          "model" = some (.str "chat")
     ∧ (Main.GizAI.buildData "qwen-coder-32b"
        [Json.obj [("type", Json.str "human"), ("content", Json.str "hi")]]).getField
          "baseModel" = some (.str "qwen-coder-32b")
     ∧ (Main.GizAI.buildData "qwen-coder-32b"
        [Json.obj [("type", Json.str "human"), ("content", Json.str "hi")]]).getField
          "noStream" = some (.bool true))
  ∧ ((Main2.outboundBody { model := "qwen-coder-32b", messages := [ { type := .HUMAN, content := "hi" } ] }).getField "model" =
          some (.str "chat")
     ∧ (Main2.outboundBody { model := "qwen-coder-32b", messages := [ { type := .HUMAN, content := "hi" } ] }).getField "baseModel" =
          some (.str "qwen-coder-32b")
     ∧ (Main2.outboundBody { model := "qwen-coder-32b", messages := [ { type := .HUMAN, content := "hi" } ] }).getField "noStream" =
          some (.bool true)) :=
  ⟨c2_outbound_body_fields.1
      { model := "qwen-coder-32b", messages := [ { content := some "hi", role := some .HUMAN } ] }
      (Main.GizAI.buildData "qwen-coder-32b"
        [Json.obj [("type", Json.str "human"), ("content", Json.str "hi")]]) rfl,
   c2_outbound_body_fields.2
      { model := "qwen-coder-32b", messages := [ { type := .HUMAN, content := "hi" } ] }⟩

/-- C3: for every inbound ChatRequest, if the outbound provider call returns
any HTTP status other than 201, the provider client fails with an error
carrying the observed status code, and the endpoint responds with HTTP 500
whose detail string mentions that status code. -/
theorem c3_bad_status_error :
    (∀ (model : String) (msgs : List Json) (provider : Json → HttpResponse)
       (s : Nat) (body : Option Json),
       provider (Main.GizAI.buildData model msgs) = ⟨s, body⟩ → s ≠ 201 →
       Main.GizAI.create_async_generator model msgs provider =
         .error ("Unexpected response status: " ++ toString s)
       ∧ mentions ("Unexpected response status: " ++ toString s) s)
  ∧ (∀ (req : Main.ChatRequest) (msgs : List Json) (provider : Json → HttpResponse)
       (s : Nat) (body : Option Json),
       Main.translateMessages req.messages = .ok msgs →
       provider (Main.GizAI.buildData req.model msgs) = ⟨s, body⟩ → s ≠ 201 →
       ∃ d, Main.chat_completions req provider = .httpError 500 d ∧ mentions d s)
  ∧ (∀ (req : Main2.ChatRequest) (provider : Json → HttpResponse)
       (s : Nat) (body : Option Json),
       provider (Main2.outboundBody req) = ⟨s, body⟩ → s ≠ 201 →
       ∃ d, Main2.chat_completions req provider = .httpError 500 d ∧ mentions d s) := by
  refine ⟨?_, ?_, ?_⟩
  · intro model msgs provider s body hp hs
    refine ⟨?_, "Unexpected response status: ", rfl⟩
    simp [Main.GizAI.create_async_generator, hp, hs]
  · intro req msgs provider s body ht hp hs
    refine ⟨"Unexpected response status: " ++ toString s, ?_,
      "Unexpected response status: ", rfl⟩
    simp [Main.chat_completions, ht, Main.GizAI.create_async_generator, hp, hs]
  · intro req provider s body hp hs
    refine ⟨"Unexpected response status: " ++ toString s, ?_,
      "Unexpected response status: ", rfl⟩
    simp only [Main2.outboundBody] at hp
    simp [Main2.chat_completions, Main2.GizAI.create_async_generator, hp, hs]

/-- Witness for C3 at a provider mock returning HTTP 403. -/
theorem c3_bad_status_error_witness :
    (Main.GizAI.create_async_generator "m"
        [Json.obj [("type", Json.str "human"), ("content", Json.str "hi")]]
        (fun _ => ⟨403, none⟩) =
      .error ("Unexpected response status: " ++ toString 403)
     ∧ mentions ("Unexpected response status: " ++ toString 403) 403)
  ∧ (∃ d, Main.chat_completions
        { model := "m", messages := [ { content := some "hi", role := some .HUMAN } ] }
        (fun _ => ⟨403, none⟩) = .httpError 500 d ∧ mentions d 403)
  ∧ (∃ d, Main2.chat_completions
        { model := "m", messages := [ { type := .HUMAN, content := "hi" } ] }
        (fun _ => ⟨403, none⟩) = .httpError 500 d ∧ mentions d 403) :=
  ⟨c3_bad_status_error.1 "m"
      [Json.obj [("type", Json.str "human"), ("content", Json.str "hi")]]
      _ 403 none rfl (by decide),
   c3_bad_status_error.2.1
      { model := "m", messages := [ { content := some "hi", role := some .HUMAN } ] }
      [Json.obj [("type", Json.str "human"), ("content", Json.str "hi")]]
      _ 403 none rfl rfl (by decide),
   c3_bad_status_error.2.2
      { model := "m", messages := [ { type := .HUMAN, content := "hi" } ] }
      _ 403 none rfl (by decide)⟩

/-- C4 counterexample: at the concrete unrecognized role string "tool", the
claim fails. The before-validator does return the string unchanged, but the
subsequent enum coercion of the role field raises a validation failure, so
the role never passes through to an outbound provider body; in the second
instance the enum typing of `type` likewise rejects it. -/
theorem c4_unrecognized_role_cex :
    Main.validateRole (some "tool") =
      .error "validation error: role is not a valid MessageType"
  ∧ (Main.validateRole (some "tool")).isOk = false
  ∧ Main2.parseType "tool" =
      .error "validation error: type is not a valid MessageType"
  ∧ (Main2.parseType "tool").isOk = false :=
  ⟨rfl, rfl, rfl, rfl⟩

/-- C4 amended: for every inbound role string outside the recognized set,
the `map_role` before-validator passes the string through unchanged, but the
enum typing of the field then rejects it, so request validation fails and no
message with an unrecognized role reaches the outbound provider body; the
second instance, which has no validator, rejects unrecognized type strings
the same way. -/
theorem c4_unrecognized_role_amended :
    (∀ s : String, Main.recognizedRole s = false →
       Main.Message.map_role s = .inr s
       ∧ Main.validateRole (some s) =
           .error "validation error: role is not a valid MessageType")
  ∧ (∀ s : String, Main2.recognizedType s = false →
       Main2.parseType s =
         .error "validation error: type is not a valid MessageType") := by
  constructor
  · intro s h
    simp only [Main.recognizedRole, Bool.or_eq_false_iff, beq_eq_false_iff_ne,
      ne_eq] at h
    obtain ⟨h1, h2, h3, h4, h5⟩ : ¬s = "user" ∧ ¬s = "assistant" ∧ ¬s = "human"
        ∧ ¬s = "ai" ∧ ¬s = "system" := by tauto
    constructor
    · simp [Main.Message.map_role, h1, h2]
    · simp [Main.validateRole, Main.Message.map_role, Main.MessageType.ofString,
        h1, h2, h3, h4, h5]
  · intro s h
    simp only [Main2.recognizedType, Bool.or_eq_false_iff, beq_eq_false_iff_ne,
      ne_eq] at h
    obtain ⟨h1, h2, h3⟩ : ¬s = "human" ∧ ¬s = "assistant" ∧ ¬s = "system" := by
      tauto
    simp [Main2.parseType, Main2.MessageType.ofString, h1, h2, h3]

/-- Witness for the amended C4 at the concrete unrecognized string "tool". -/
theorem c4_unrecognized_role_amended_witness :
    (Main.Message.map_role "tool" = .inr "tool"
     ∧ Main.validateRole (some "tool") =
         .error "validation error: role is not a valid MessageType")
  ∧ Main2.parseType "tool" =
      .error "validation error: type is not a valid MessageType" :=
  ⟨c4_unrecognized_role_amended.1 "tool" (by decide),
   c4_unrecognized_role_amended.2 "tool" (by decide)⟩

/-- C5 counterexample: a message sent with role "assistant" is parsed to the
AI member, whose provider label in the outbound body is "ai", while the
response-composition validator maps "assistant" to ASSISTANT (label
"assistant"): the two stages disagree on the "assistant" alias. -/
theorem c5_assistant_alias_cex :
    Main.validateRole (some "assistant") = .ok (some Main.MessageType.AI)
  ∧ Main.translateMessage { content := some "hi", role := some Main.MessageType.AI } =
      .ok (Json.obj [("type", Json.str "ai"), ("content", Json.str "hi")])
  ∧ Main.ResponseMessage.map_role "assistant" = .inl Main.MessageType.ASSISTANT
  ∧ Main.MessageType.value Main.MessageType.AI ≠
      Main.MessageType.value Main.MessageType.ASSISTANT :=
  ⟨rfl, rfl, rfl, by decide⟩

/-- C5 amended: the "user" alias is normalized consistently — both
`Message.map_role` and `ResponseMessage.map_role` send "user" to HUMAN, and a
message sent with role "user" produces the outbound provider role "human" —
but the "assistant" alias is not: request parsing sends "assistant" to AI
(outbound label "ai") while response composition uses ASSISTANT (label
"assistant"), as does its validator. -/
theorem c5_role_alias_amended :
    Main.Message.map_role "user" = .inl Main.MessageType.HUMAN
  ∧ Main.ResponseMessage.map_role "user" = .inl Main.MessageType.HUMAN
  ∧ Main.validateRole (some "user") = .ok (some Main.MessageType.HUMAN)
  ∧ Main.translateMessage { content := some "hi", role := some Main.MessageType.HUMAN } =
      .ok (Json.obj [("type", Json.str "human"), ("content", Json.str "hi")])
  ∧ Main.Message.map_role "assistant" = .inl Main.MessageType.AI
  ∧ Main.MessageType.value Main.MessageType.AI = "ai"
  ∧ Main.ResponseMessage.map_role "assistant" = .inl Main.MessageType.ASSISTANT
  ∧ (∀ model out : String,
       (Main.composeResponse model out).choices =
         some [ { finish_reason := some "stop", index := some 0,
                  message := some { content := some out,
                                    role := Main.MessageType.ASSISTANT } } ]) :=
  ⟨rfl, rfl, rfl, rfl, rfl, rfl, rfl, fun _ _ => rfl⟩

/-- C6: for every inbound ChatRequest, the outbound `input.messages` list has
exactly the same number of entries as the inbound messages list and each
outbound entry is the translation of the inbound entry at the same position
(no reordering, deduplication, or truncation); in particular the inbound
pair system/user yields two outbound entries with roles `system` and `human`
in that order. -/
theorem c6_order_preserved :
    (∀ (msgs : List Main.Message) (out : List Json),
       Main.translateMessages msgs = .ok out →
       out.length = msgs.length
       ∧ List.Forall₂ (fun m j => Main.translateMessage m = .ok j) msgs out)
  ∧ (∀ msgs : List Main2.Message,
       (Main2.translateMessages msgs).length = msgs.length
       ∧ List.Forall₂ (fun m j => Main2.translateMessage m = j) msgs
           (Main2.translateMessages msgs))
  ∧ (Main.validateRole (some "system") = .ok (some Main.MessageType.SYSTEM)
     ∧ Main.validateRole (some "user") = .ok (some Main.MessageType.HUMAN)
     ∧ Main.translateMessages
         [ { content := some "be terse", role := some .SYSTEM },
           { content := some "hi", role := some .HUMAN } ] =
       .ok [ Json.obj [("type", Json.str "system"), ("content", Json.str "be terse")],
             Json.obj [("type", Json.str "human"), ("content", Json.str "hi")] ]) := by
  refine ⟨?_, ?_, rfl, rfl, rfl⟩
  · intro msgs
    induction msgs with
    | nil =>
      intro out h
      cases h
      exact ⟨rfl, List.Forall₂.nil⟩
    | cons m ms ih =>
      intro out h
      unfold Main.translateMessages at h
      cases hm : Main.translateMessage m with
      | error e => rw [hm] at h; cases h
      | ok j =>
        rw [hm] at h
        cases hms : Main.translateMessages ms with
        | error e => rw [hms] at h; cases h
        | ok js =>
          rw [hms] at h
          cases h
          obtain ⟨hlen, hfa⟩ := ih js hms
          exact ⟨by simp [hlen], List.Forall₂.cons hm hfa⟩
  · intro msgs
    refine ⟨by simp [Main2.translateMessages], ?_⟩
    induction msgs with
    | nil => exact List.Forall₂.nil
    | cons m ms ih => exact List.Forall₂.cons rfl ih

/-- Witness for C6 at the concrete system/user message pair. -/
theorem c6_order_preserved_witness :
    ([ Json.obj [("type", Json.str "system"), ("content", Json.str "be terse")],
       Json.obj [("type", Json.str "human"), ("content", Json.str "hi")] ]).length =
      ([ { content := some "be terse", role := some .SYSTEM },
         { content := some "hi", role := some .HUMAN } ] : List Main.Message).length
  ∧ List.Forall₂ (fun m j => Main.translateMessage m = .ok j)
      [ { content := some "be terse", role := some .SYSTEM },
        { content := some "hi", role := some .HUMAN } ]
      [ Json.obj [("type", Json.str "system"), ("content", Json.str "be terse")],
        Json.obj [("type", Json.str "human"), ("content", Json.str "hi")] ] :=
  c6_order_preserved.1
    [ { content := some "be terse", role := some .SYSTEM },
      { content := some "hi", role := some .HUMAN } ]
    [ Json.obj [("type", Json.str "system"), ("content", Json.str "be terse")],
      Json.obj [("type", Json.str "human"), ("content", Json.str "hi")] ] rfl

/-- C7: for every inbound ChatRequest, if the outbound provider call returns
HTTP 201 but its JSON body lacks an `output` field (or the body is
unparsable), the provider client fails with a parse-failure error and the
endpoint responds with HTTP 500. -/
theorem c7_parse_failure_error :
    (∀ (model : String) (msgs : List Json) (provider : Json → HttpResponse)
       (body : Option Json),
       provider (Main.GizAI.buildData model msgs) = ⟨201, body⟩ →
       (body = none ∨ ∃ b, body = some b ∧ b.getField "output" = none) →
       ∃ d, Main.GizAI.create_async_generator model msgs provider = .error d)
  ∧ (∀ (req : Main.ChatRequest) (msgs : List Json) (provider : Json → HttpResponse)
       (body : Option Json),
       Main.translateMessages req.messages = .ok msgs →
       provider (Main.GizAI.buildData req.model msgs) = ⟨201, body⟩ →
       (body = none ∨ ∃ b, body = some b ∧ b.getField "output" = none) →
       ∃ d, Main.chat_completions req provider = .httpError 500 d)
  ∧ (∀ (req : Main2.ChatRequest) (provider : Json → HttpResponse)
       (body : Option Json),
       provider (Main2.outboundBody req) = ⟨201, body⟩ →
       (body = none ∨ ∃ b, body = some b ∧ b.getField "output" = none) →
       ∃ d, Main2.chat_completions req provider = .httpError 500 d) := by
  refine ⟨?_, ?_, ?_⟩
  · intro model msgs provider body hp hbad
    rcases hbad with rfl | ⟨b, rfl, hout⟩
    · exact ⟨"JSONDecodeError: response body is not valid JSON",
        by simp [Main.GizAI.create_async_generator, hp]⟩
    · exact ⟨"KeyError: output",
        by simp [Main.GizAI.create_async_generator, hp, hout]⟩
  · intro req msgs provider body ht hp hbad
    rcases hbad with rfl | ⟨b, rfl, hout⟩
    · exact ⟨"JSONDecodeError: response body is not valid JSON",
        by simp [Main.chat_completions, ht, Main.GizAI.create_async_generator, hp]⟩
    · exact ⟨"KeyError: output",
        by simp [Main.chat_completions, ht, Main.GizAI.create_async_generator, hp, hout]⟩
  · intro req provider body hp hbad
    simp only [Main2.outboundBody] at hp
    rcases hbad with rfl | ⟨b, rfl, hout⟩
    · exact ⟨"JSONDecodeError: response body is not valid JSON",
        by simp [Main2.chat_completions, Main2.GizAI.create_async_generator, hp]⟩
    · exact ⟨"KeyError: output",
        by simp [Main2.chat_completions, Main2.GizAI.create_async_generator, hp, hout]⟩

/-- Witness for C7 at a provider mock returning 201 with an empty JSON
object (no `output` field). -/
theorem c7_parse_failure_error_witness :
    (∃ d, Main.GizAI.create_async_generator "m"
        [Json.obj [("type", Json.str "human"), ("content", Json.str "hi")]]
        (fun _ => ⟨201, some (Json.obj [])⟩) = .error d)
  ∧ (∃ d, Main.chat_completions
        { model := "m", messages := [ { content := some "hi", role := some .HUMAN } ] }
        (fun _ => ⟨201, some (Json.obj [])⟩) = .httpError 500 d)
  ∧ (∃ d, Main2.chat_completions
        { model := "m", messages := [ { type := .HUMAN, content := "hi" } ] }
        (fun _ => ⟨201, some (Json.obj [])⟩) = .httpError 500 d) :=
  ⟨c7_parse_failure_error.1 "m"
      [Json.obj [("type", Json.str "human"), ("content", Json.str "hi")]]
      _ (some (Json.obj [])) rfl (Or.inr ⟨Json.obj [], rfl, rfl⟩),
   c7_parse_failure_error.2.1
      { model := "m", messages := [ { content := some "hi", role := some .HUMAN } ] }
      [Json.obj [("type", Json.str "human"), ("content", Json.str "hi")]]
      _ (some (Json.obj [])) rfl rfl (Or.inr ⟨Json.obj [], rfl, rfl⟩),
   c7_parse_failure_error.2.2
      { model := "m", messages := [ { type := .HUMAN, content := "hi" } ] }
      _ (some (Json.obj [])) rfl (Or.inr ⟨Json.obj [], rfl, rfl⟩)⟩

/-- C8: in OpenAI-compatible mode, for every extracted output text the
response composer is total (a Lean function: it never fails) and produces an
envelope with exactly one choice whose message has the assistant role and
the extracted text as content, with finish_reason "stop", index 0, the
fabricated response id and creation timestamp, and zero usage counters. -/
theorem c8_composer_shape :
    ∀ model out : String,
      (Main.composeResponse model out).choices =
        some [ { finish_reason := some "stop", index := some 0,
                 message := some { content := some out,
                                   role := Main.MessageType.ASSISTANT } } ]
      ∧ (Main.composeResponse model out).id =
          some "chatcmpl-dc4f6c13-7739-4acc-8940-ec822ccb24dc"
      ∧ (Main.composeResponse model out).created = some 1735359843
      ∧ (Main.composeResponse model out).object = some "chat.completion"
      ∧ (Main.composeResponse model out).model = some model
      ∧ (Main.composeResponse model out).usage =
          some { completion_tokens := some 0, prompt_tokens := some 0,
                 total_tokens := some 0 }
      ∧ (Main.composeResponse model out).system_fingerprint = none :=
  fun _ _ => ⟨rfl, rfl, rfl, rfl, rfl, rfl, rfl⟩

/-- C9: the two adapter instances behave identically apart from their
message-schema conventions: given the same model identifier and the same
translated message list, they use the same endpoint URL, the same header
set, build the same outbound body, and have the same success and failure
behavior on every provider response. -/
theorem c9_instances_agree :
    Main.GizAI.api_endpoint = Main2.GizAI.api_endpoint
  ∧ Main.GizAI.headers = Main2.GizAI.headers
  ∧ (∀ (model : String) (msgs : List Json),
       Main.GizAI.buildData model msgs = Main2.GizAI.buildData model msgs)
  ∧ (∀ (model : String) (msgs : List Json) (provider : Json → HttpResponse),
       Main.GizAI.create_async_generator model msgs provider =
         Main2.GizAI.create_async_generator model msgs provider) :=
  ⟨rfl, rfl, fun _ _ => rfl, fun _ _ _ => rfl⟩

/-- C10: the outbound provider body depends only on the inbound request's
model identifier and messages: two requests agreeing on those but differing
in `temperature` (first instance) or in `mode` and `noStream` (second
instance) produce the same outbound body. -/
theorem c10_noninterference :
    (∀ r1 r2 : Main.ChatRequest, r1.model = r2.model → r1.messages = r2.messages →
       Main.outboundBody r1 = Main.outboundBody r2)
  ∧ (∀ r1 r2 : Main2.ChatRequest, r1.model = r2.model → r1.messages = r2.messages →
       Main2.outboundBody r1 = Main2.outboundBody r2) := by
  constructor
  · intro r1 r2 hm hmsg
    simp [Main.outboundBody, hm, hmsg]
  · intro r1 r2 hm hmsg
    simp [Main2.outboundBody, hm, hmsg]

/-- Witness for C10: two concrete requests per instance, differing only in
`temperature`, respectively only in `mode` and `noStream`. -/
theorem c10_noninterference_witness :
    Main.outboundBody
        { model := "m", messages := [ { content := some "hi", role := some .HUMAN } ], temperature := none } =
      Main.outboundBody
        { model := "m", messages := [ { content := some "hi", role := some .HUMAN } ], temperature := some 1.0 }
  ∧ Main2.outboundBody
        { model := "m", messages := [ { type := .HUMAN, content := "hi" } ], mode := "plan", noStream := true } =
      Main2.outboundBody
        { model := "m", messages := [ { type := .HUMAN, content := "hi" } ], mode := "x", noStream := false } :=
  ⟨c10_noninterference.1
      { model := "m", messages := [ { content := some "hi", role := some .HUMAN } ], temperature := none }
      { model := "m", messages := [ { content := some "hi", role := some .HUMAN } ], temperature := some 1.0 }
      rfl rfl,
   c10_noninterference.2
      { model := "m", messages := [ { type := .HUMAN, content := "hi" } ], mode := "plan", noStream := true }
      { model := "m", messages := [ { type := .HUMAN, content := "hi" } ], mode := "x", noStream := false }
      rfl rfl⟩
